import Mathlib

/-!
Verification of the GAP layer (`gap_hci.go`) of the jagobagascon/bluetooth
library against its natural-language specification.

The Go source is shallowly embedded: byte buffers become `List Nat` (each
entry a byte value), `uint8` arithmetic becomes `% 256` on `Nat`, fallible
functions return `Except String` mirroring `errors.New`, and the cooperative
polling loops become fuel-indexed recursions over an explicit environment
describing what the HCI transport reports at each poll.  Wall-clock time is
an explicit `elapsedNs` observation per loop iteration, matching the
`time.Now().UnixNano() - start` reads in the source.
-/

namespace GapHci

/-- Write one byte into a buffer (Go `buf[i] = v`); out-of-range writes cannot
occur on the paths modelled (`List.set` is a no-op out of range). -/
def setByte (a : List Nat) (i v : Nat) : List Nat := a.set i v

/-- Go `copy(dst[i:], src)`: copies `src` into `dst` starting at `i`,
truncating at the end of `dst` exactly as Go's `copy` does. -/
def copyAt (dst : List Nat) (i : Nat) (src : List Nat) : List Nat :=
  match src with
  | [] => dst
  | b :: rest => if i < dst.length then copyAt (setByte dst i b) (i + 1) rest else dst

/-- Go `binary.LittleEndian.PutUint16(buf[i:], v)`: low byte then high byte. -/
def putUint16 (a : List Nat) (i v : Nat) : List Nat :=
  setByte (setByte a i (v % 256)) (i + 1) (v / 256 % 256)

/-- Modelled from the spec: the `UUID` type lives outside `gap_hci.go`
(`uuid.go` is not part of the embedded source).  Per spec §3/§4.1 a service
UUID is 16-bit, 32-bit or 128-bit; `Is16Bit`/`Is32Bit` discriminate the
widths (mutually exclusive, checked in that order by the Go `switch`),
`Get16Bit` yields the 16-bit value and `Bytes` the canonical 16-byte form. -/
inductive UUIDM
  | u16 (v : Nat)
  | u32 (bytes : List Nat)
  | u128 (bytes : List Nat)
deriving DecidableEq, Repr

/-- Canonical 16-byte form of a UUID (only consulted on the 32-bit path). -/
def UUIDM.bytes : UUIDM → List Nat
  | .u16 _ => List.replicate 16 0
  | .u32 b => b
  | .u128 b => b

/-- Manufacturer-data element: 16-bit company identifier plus payload. -/
structure MDElem where
  companyID : Nat
  data : List Nat
deriving DecidableEq, Repr

/-- Service-data element: service UUID plus payload. -/
structure SDElem where
  uuid : UUIDM
  data : List Nat
deriving DecidableEq, Repr

/-- One manufacturer-data append step of `Advertisement.Start`
(`gap_hci.go:386-399`).  `advertisingDataLen` is a Go `uint8`, so every
addition in the guard, the length byte and the length update wraps mod 256;
nested `uint8` casts collapse to a single `% 256` because `% 256` is a ring
homomorphism on addition. -/
def mdStep (acc : List Nat × Nat) (md : MDElem) : Except String (List Nat × Nat) :=
  let arr := acc.1
  let len := acc.2
  if 31 < (len + 4 + md.data.length) % 256 then
    Except.error "ManufacturerData too long"
  else
    let arr := setByte arr len ((3 + md.data.length) % 256)
    let arr := setByte arr (len + 1) 0xFF
    let arr := putUint16 arr (len + 2) md.companyID
    let arr := copyAt arr (len + 4) md.data
    Except.ok (arr, (len + 4 + md.data.length) % 256)

/-- The single-service-UUID section of `Advertisement.Start`
(`gap_hci.go:365-384`): only a singleton UUID list is encoded.  The length
byte at index 3 is the hard-coded `0x03` and the type byte is
`ADCompleteAdvertisedService16 = 0x03` in every width case; the 16-bit case
writes 2 value bytes (`sz = 2`), the 32-bit case copies all 16 reversed
UUID bytes from index 5 but advances the length counter by `sz + 2 = 8`,
and the 128-bit case matches no `switch` case (`sz` stays 0). -/
def encodeAdvServiceUUID (arr : List Nat) (len : Nat) (uuids : List UUIDM) :
    List Nat × Nat :=
  match uuids with
  | [u] =>
    match u with
    | .u16 v => (setByte (setByte (putUint16 arr 5 v) 3 3) 4 3, len + 2 + 2)
    | .u32 _ => (setByte (setByte (copyAt arr 5 u.bytes.reverse) 3 3) 4 3, len + 6 + 2)
    | .u128 _ => (setByte (setByte arr 3 3) 4 3, len + 0 + 2)
  | _ => (arr, len)

/-- The advertising-data packet built by `Advertisement.Start`
(`gap_hci.go:357-402`): 3-byte Flags structure, optional single service
UUID structure, then the manufacturer-data elements; on success the bytes
pushed to the transport are `advertisingData[:advertisingDataLen]`. -/
def buildAdvData (serviceUUIDs : List UUIDM) (manufacturerData : List MDElem) :
    Except String (List Nat) :=
  let arr := setByte (setByte (setByte (List.replicate 31 0) 0 2) 1 1) 2 6
  let st := encodeAdvServiceUUID arr 3 serviceUUIDs
  (manufacturerData.foldlM mdStep st).map fun acc => acc.1.take acc.2

/-- One service-data append step of `Advertisement.setServiceData`
(`gap_hci.go:471-490`), with the same wrapping `uint8` arithmetic as
`mdStep`; a 32-bit UUID is a hard error and a 128-bit UUID matches no
`switch` case, so no UUID bytes are written for it. -/
def sdStep (acc : List Nat × Nat) (sde : SDElem) : Except String (List Nat × Nat) :=
  let arr := acc.1
  let len := acc.2
  if 31 < (len + 4 + sde.data.length) % 256 then
    Except.error "ServiceData too long"
  else
    match sde.uuid with
    | .u16 v =>
      let arr := putUint16 arr (len + 2) v
      let arr := setByte arr len ((3 + sde.data.length) % 256)
      let arr := setByte arr (len + 1) 0x16
      let arr := copyAt arr (len + 4) sde.data
      Except.ok (arr, (len + 4 + sde.data.length) % 256)
    | .u32 _ => Except.error "32-bit ServiceData UUIDs not yet supported"
    | .u128 _ =>
      let arr := setByte arr len ((3 + sde.data.length) % 256)
      let arr := setByte arr (len + 1) 0x16
      let arr := copyAt arr (len + 4) sde.data
      Except.ok (arr, (len + 4 + sde.data.length) % 256)

/-- The scan-response packet built by `Advertisement.setServiceData`
(`gap_hci.go:452-497`).  Note the branch for names longer than 29 bytes
writes type byte `ADCompleteLocalName = 0x09` (`gap_hci.go:461`) while the
branch for names of 1..29 bytes writes `ADShortLocalName = 0x08`
(`gap_hci.go:466`); on success the transport receives
`scanResponseData[:scanResponseDataLen]`. -/
def buildScanResponseData (localName : List Nat) (serviceData : List SDElem) :
    Except String (List Nat) :=
  let arr := List.replicate 31 0
  let st :=
    if 29 < localName.length then
      (copyAt (setByte (setByte arr 0 (1 + 29)) 1 0x09) 2 (localName.take 29), 31)
    else if 0 < localName.length then
      (copyAt (setByte (setByte arr 0 ((1 + localName.length) % 256)) 1 0x08) 2 localName,
        (2 + localName.length) % 256)
    else (arr, 0)
  (serviceData.foldlM sdStep st).map fun acc => acc.1.take acc.2

/-- Checks that a packet parses as a sequence of AD structures
`[length][type][value]` in which every structure satisfies
`length = 1 + len(value)` with `length ≥ 1` and never exceeds the bytes
remaining in the packet (spec §3 invariant). -/
def adPacketWFAux (pkt : List Nat) : Nat → Nat → Bool
  | 0, _ => false
  | fuel + 1, i =>
    if i = pkt.length then true
    else if i < pkt.length then
      if 1 ≤ pkt.getD i 0 ∧ i + 1 + pkt.getD i 0 ≤ pkt.length then
        adPacketWFAux pkt fuel (i + 1 + pkt.getD i 0)
      else false
    else false

/-- Entry point of the AD-structure well-formedness check. -/
def adPacketWellFormed (pkt : List Nat) : Bool :=
  adPacketWFAux pkt (pkt.length + 1) 0

/-- The 12 ASCII bytes of the local name "Go Bluetooth" used by the
repository's advertisement example. -/
def goBluetoothName : List Nat :=
  [71, 111, 32, 66, 108, 117, 101, 116, 111, 111, 116, 104]

/-- A 30-byte local name (thirty copies of ASCII 'A'), one byte over the
29-byte scan-response name budget. -/
def longName30 : List Nat := List.replicate 30 65

/-! ## The scan decode walk (`Adapter.Scan`, `gap_hci.go:75-101`)

The report buffer `eirData` is a fixed array of the HCI layer; the walk is
driven only by the declared report length `eirLength`.  The buffer is
modelled as a total function `Nat → Nat` so that every byte read is
meaningful and the set of offsets actually read can be collected. -/

/-- Offsets of the value bytes read for one AD structure of type `t` starting
at offset `i` with length field `l`: 16-bit UUID types read 2 bytes at
`i+2`, 128-bit UUID types read 16 bytes at `i+2`, local-name types read the
`l-1` bytes `eirData[i+2 : i+1+l]`; Service Data and Manufacturer Data are
recognized but unread (TODO branches), other types are skipped. -/
def valueReadOffsets (t i l : Nat) : List Nat :=
  if t = 2 ∨ t = 3 then [i + 2, i + 3]
  else if t = 6 ∨ t = 7 then (List.range 16).map (fun k => i + 2 + k)
  else if t = 8 ∨ t = 9 then (List.range (l - 1)).map (fun k => i + 2 + k)
  else []

/-- All buffer offsets read by the decode loop from position `i` on: each
iteration reads the header bytes `i` and `i+1` (`l, t := eirData[i],
eirData[i+1]`), stops if `l < 1`, otherwise reads the value bytes for `t`
and advances to `i + l + 1`.  `fuel = length` suffices since `i` grows by
at least 2 per iteration. -/
def scanReadOffsetsAux (buf : Nat → Nat) (length : Nat) : Nat → Nat → List Nat
  | 0, _ => []
  | fuel + 1, i =>
    if i < length then
      if buf i < 1 then [i, i + 1]
      else
        i :: (i + 1) ::
          (valueReadOffsets (buf (i + 1)) i (buf i) ++
            scanReadOffsetsAux buf length fuel (i + buf i + 1))
    else []

/-- Offsets read by the whole decode walk of one report. -/
def scanReadOffsets (buf : Nat → Nat) (length : Nat) : List Nat :=
  scanReadOffsetsAux buf length length 0

/-- The offsets at which the decode loop starts an AD structure (reads a
header), mirroring the recursion of `scanReadOffsetsAux`. -/
def scanVisitedAux (buf : Nat → Nat) (length : Nat) : Nat → Nat → List Nat
  | 0, _ => []
  | fuel + 1, i =>
    if i < length then
      if buf i < 1 then [i]
      else i :: scanVisitedAux buf length fuel (i + buf i + 1)
    else []

/-- Start offsets of all AD structures the decode walk visits. -/
def scanVisited (buf : Nat → Nat) (length : Nat) : List Nat :=
  scanVisitedAux buf length length 0

/-- Well-formedness of the AD structure starting at offset `i` of a report of
declared length `length`: its 2-byte header lies within the declared data,
its declared extent `i + 1 + l` fits within the declared length, and its
length field is consistent with its type (at least 3 for the 16-bit UUID
types 0x02/0x03, at least 17 for the 128-bit UUID types 0x06/0x07). -/
def adStructWF (buf : Nat → Nat) (length i : Nat) : Prop :=
  i + 2 ≤ length ∧
  (1 ≤ buf i → i + 1 + buf i ≤ length) ∧
  ((buf (i + 1) = 2 ∨ buf (i + 1) = 3) → 3 ≤ buf i) ∧
  ((buf (i + 1) = 6 ∨ buf (i + 1) = 7) → 17 ≤ buf i)

instance (buf : Nat → Nat) (length i : Nat) : Decidable (adStructWF buf length i) := by
  unfold adStructWF; infer_instance

/-- Advertisement fields accumulated by the decode walk: service UUIDs in
append order and the local name (last occurrence wins, by assignment). -/
structure AdvFields where
  serviceUUIDs : List UUIDM
  localName : List Nat
deriving DecidableEq, Repr

/-- The field extraction of the decode loop (`gap_hci.go:81-98`): 16-bit
UUIDs are read little-endian at `i+2`, 128-bit UUIDs as 16 raw bytes at
`i+2`, local names as the `l-1` bytes at `i+2`; other types contribute
nothing. -/
def decodeAdvFieldsAux (buf : Nat → Nat) (length : Nat) :
    Nat → Nat → AdvFields → AdvFields
  | 0, _, adf => adf
  | fuel + 1, i, adf =>
    if i < length then
      if buf i < 1 then adf
      else
        let t := buf (i + 1)
        let adf :=
          if t = 2 ∨ t = 3 then
            { adf with serviceUUIDs :=
                adf.serviceUUIDs ++ [.u16 (buf (i + 2) + 256 * buf (i + 3))] }
          else if t = 6 ∨ t = 7 then
            { adf with serviceUUIDs :=
                adf.serviceUUIDs ++ [.u128 ((List.range 16).map fun k => buf (i + 2 + k))] }
          else if t = 8 ∨ t = 9 then
            { adf with localName := (List.range (buf i - 1)).map fun k => buf (i + 2 + k) }
          else adf
        decodeAdvFieldsAux buf length fuel (i + buf i + 1) adf
    else adf

/-- Fields decoded from one advertisement report. -/
def decodeAdvFields (buf : Nat → Nat) (length : Nat) : AdvFields :=
  decodeAdvFieldsAux buf length length 0 ⟨[], []⟩

/-! ## Errors and HCI commands -/

/-- The error values of the GAP layer: `errScanning`, `errNotScanning`,
`ErrConnect`, plus a stand-in for an error propagated from the transport. -/
inductive BError
  | errScanning
  | errNotScanning
  | errConnect
  | errTransport
deriving DecidableEq, Repr

/-- The HCI transport commands issued by the embedded GAP operations. -/
inductive HCICmd
  | setScanEnable (enable filterDuplicates : Bool)
  | setScanParams
  | createConn (random : Bool)
  | cancelConn
  | setAdvParams
  | setAdvData (p : List Nat)
  | setScanRespData (p : List Nat)
  | setAdvEnable (b : Bool)
  | clearLocalData
deriving DecidableEq, Repr

/-! ## The scan engine (`Adapter.Scan` / `Adapter.StopScan`,
`gap_hci.go:35-150`) -/

/-- One pending advertisement report as surfaced by `hci.poll`. -/
structure AdvReport where
  eirLength : Nat
  eirData : Nat → Nat
  peerBdaddr : List Nat
  peerBdaddrType : Nat
  rssi : Int

/-- Environment of one `Scan` call: whether each transport command errors,
whether `poll` errors at iteration `n`, the pending report (if any) at
iteration `n`, and whether a concurrent `StopScan` has cleared the
`scanning` flag by iteration `n`. -/
structure ScanEnv where
  enable1Err : Bool
  paramsErr : Bool
  enable2Err : Bool
  pollErr : Nat → Bool
  report : Nat → Option AdvReport
  stopObserved : Nat → Bool

/-- A decoded scan result handed to the callback. -/
structure ScanResultM where
  mac : List Nat
  isRandom : Bool
  rssi : Int
  fields : AdvFields

/-- The scan loop (`gap_hci.go:58-133`): poll; on a pending report discard
it if its declared length exceeds 31, otherwise decode it and invoke the
callback (collected in order); with no pending report return once the
`scanning` flag has been cleared by a concurrent `StopScan`.  Returns the
outcome, the final `scanning` flag, and the collected results; `none` means
the fuel ran out before the loop exited. -/
def scanLoop (env : ScanEnv) :
    Nat → Nat → List ScanResultM → Option (Except BError Unit × Bool × List ScanResultM)
  | 0, _, _ => none
  | fuel + 1, n, acc =>
    if env.pollErr n then some (.error .errTransport, true, acc)
    else
      match env.report n with
      | some r =>
        if 31 < r.eirLength then scanLoop env fuel (n + 1) acc
        else
          scanLoop env fuel (n + 1)
            (acc ++ [⟨r.peerBdaddr, r.peerBdaddrType = 1, r.rssi,
              decodeAdvFields r.eirData r.eirLength⟩])
      | none =>
        if env.stopObserved n then some (.ok (), false, acc)
        else scanLoop env fuel (n + 1) acc

/-- `Adapter.Scan` (`gap_hci.go:35-136`): fails with `errScanning` if the
`scanning` flag is already set, before any transport command; otherwise
disables scanning, sets the scan parameters, sets the flag, enables
scanning, and enters the poll loop.  Returns the outcome, the final
`scanning` flag, the commands issued, and the collected scan results. -/
def scan (scanning : Bool) (env : ScanEnv) (fuel : Nat) :
    Option (Except BError Unit × Bool × List HCICmd × List ScanResultM) :=
  if scanning then some (.error .errScanning, scanning, [], [])
  else if env.enable1Err then
    some (.error .errTransport, false, [.setScanEnable false true], [])
  else if env.paramsErr then
    some (.error .errTransport, false, [.setScanEnable false true, .setScanParams], [])
  else if env.enable2Err then
    some (.error .errTransport, true,
      [.setScanEnable false true, .setScanParams, .setScanEnable true false], [])
  else
    (scanLoop env fuel 0 []).map fun out =>
      (out.1, out.2.1,
        [.setScanEnable false true, .setScanParams, .setScanEnable true false], out.2.2)

/-- `Adapter.StopScan` (`gap_hci.go:138-150`): fails with `errNotScanning`
if no scan is active, before any transport command; otherwise disables
scanning on the controller and clears the flag. -/
def stopScan (scanning : Bool) (disableErr : Bool) :
    Except BError Unit × Bool × List HCICmd :=
  if scanning = false then (.error .errNotScanning, scanning, [])
  else if disableErr then (.error .errTransport, scanning, [.setScanEnable false false])
  else (.ok (), false, [.setScanEnable false false])

/-! ## Connection establishment (`Adapter.Connect`, `gap_hci.go:158-230`) -/

/-- The connect-complete data surfaced by `hci.poll`
(`hci.connectData`): the `peerBdaddrType` field is carried by the event
but never consulted by `Connect` when building the returned `Device`. -/
structure ConnectEvent where
  connected : Bool
  handle : Nat
  peerBdaddr : List Nat
  peerBdaddrType : Nat

/-- Environment of one `Connect` call: whether the create/cancel commands
error, whether `poll` errors at iteration `n`, the connect data observed
after poll `n`, and the wall-clock nanoseconds elapsed since the start of
the wait loop as read at iteration `n`. -/
structure ConnEnv where
  createErr : Bool
  cancelErr : Bool
  pollErr : Nat → Bool
  event : Nat → ConnectEvent
  elapsedNs : Nat → Nat

/-- A notification registration: attribute handle plus callback (callbacks
are opaque; modelled by an identifying token). -/
structure NotifReg where
  handle : Nat
  callback : Nat
deriving DecidableEq, Repr

/-- The MAC address value: 6 raw bytes plus the is-random flag. -/
structure MACAddressM where
  mac : List Nat
  isRandom : Bool
deriving DecidableEq, Repr

/-- Modelled from the spec: `makeAddress` (defined outside `gap_hci.go`)
converts the controller-reported 6-byte address into the `MAC` type;
modelled as preserving the raw bytes. -/
def makeAddress (b : List Nat) : List Nat := b

/-- The default ATT MTU (`gap_hci.go:12`). -/
def defaultMTU : Nat := 23

/-- The `Device` value returned by `Connect`: address, controller-assigned
handle, MTU, and the (initially empty) notification registrations. -/
structure DeviceM where
  address : MACAddressM
  handle : Nat
  mtu : Nat
  notificationRegistrations : List NotifReg
deriving DecidableEq, Repr

/-- Result of the connect wait loop (`gap_hci.go:184-222`). -/
inductive ConnLoopRes
  | pollFailed
  | got (ev : ConnectEvent)
  | timedOut

/-- The connect wait loop: poll (propagating errors); if the connect data
reports a connection, capture it; otherwise break once the elapsed seconds
`(Now - start) / 1e9` exceed 5, else sleep and poll again. -/
def connectLoop (env : ConnEnv) : Nat → Nat → Option ConnLoopRes
  | 0, _ => none
  | fuel + 1, n =>
    if env.pollErr n then some .pollFailed
    else if (env.event n).connected then some (.got (env.event n))
    else if 5 < env.elapsedNs n / 1000000000 then some .timedOut
    else connectLoop env fuel (n + 1)

/-- `Adapter.Connect` (`gap_hci.go:158-230`): issues the create-connection
command, runs the wait loop, and on success builds the `Device` from the
event's `peerBdaddr` and `handle` with the caller-supplied `isRandom` flag
and the default MTU; on timeout issues exactly one cancel-connection
command and fails with `ErrConnect`.  Returns the outcome paired with the
number of cancel commands issued; `none` means the fuel ran out. -/
def connect (addr : MACAddressM) (env : ConnEnv) (fuel : Nat) :
    Option (Except BError DeviceM × Nat) :=
  if env.createErr then some (.error .errTransport, 0)
  else
    match connectLoop env fuel 0 with
    | none => none
    | some .pollFailed => some (.error .errTransport, 0)
    | some (.got ev) =>
      some (.ok
        { address := { mac := makeAddress ev.peerBdaddr, isRandom := addr.isRandom }
          handle := ev.handle
          mtu := defaultMTU
          notificationRegistrations := [] }, 0)
    | some .timedOut =>
      if env.cancelErr then some (.error .errTransport, 1)
      else some (.error .errConnect, 1)

/-- Overrides the `peerBdaddrType` reported with every connect event, to
express that `Connect` is insensitive to the controller-reported address
type. -/
def setEventType (env : ConnEnv) (t : Nat) : ConnEnv :=
  { env with event := fun n => { env.event n with peerBdaddrType := t } }

/-! ## The notification registry (`gap_hci.go:274-290`)

`Device` embeds `*deviceInternal`, so `addNotificationRegistration` appends
to the shared slice.  `findNotificationRegistration` iterates with
`for _, n := range ...` and returns `&n`: per Go semantics the range clause
copies each element into the per-iteration variable `n`, so the returned
pointer is the address of that copy and does not alias the slice's backing
store.  References are therefore modelled explicitly: a pointer produced by
this code is a `freshCopy`; a pointer into the backing store (which the
code never produces) would be a `slot`. -/

/-- A Go pointer to a notification registration: either the address of a
per-iteration copy, or a slot of the registry's backing store. -/
inductive RegRef
  | freshCopy (r : NotifReg)
  | slot (i : Nat)
deriving DecidableEq, Repr

/-- `Device.findNotificationRegistration` (`gap_hci.go:274-282`): returns a
pointer to the first registration whose handle matches — the address of the
range-loop copy `n`, per `return &n`. -/
def findNotificationRegistration (regs : List NotifReg) (h : Nat) : Option RegRef :=
  match regs.find? (fun n => n.handle == h) with
  | some n => some (RegRef.freshCopy n)
  | none => none

/-- `Device.addNotificationRegistration` (`gap_hci.go:284-290`): appends to
the slice held by the shared `deviceInternal`. -/
def addNotificationRegistration (regs : List NotifReg) (h cb : Nat) : List NotifReg :=
  regs ++ [⟨h, cb⟩]

/-- Assigning a new callback through a registration pointer: a write through
a `slot` pointer updates the registry's entry; a write through a
`freshCopy` pointer lands in the copied loop variable and leaves the
registry unchanged. -/
def writeCallbackThroughRef (regs : List NotifReg) (r : RegRef) (cb : Nat) :
    List NotifReg :=
  match r with
  | .freshCopy _ => regs
  | .slot i =>
    match regs.get? i with
    | some n => regs.set i { n with callback := cb }
    | none => regs

/-! ## Advertisement configuration (`Advertisement.Configure` /
`configureGenericServices`, `gap_hci.go:324-345, 502-534`) -/

/-- A characteristic registered with the adapter's service table. -/
structure CharacteristicM where
  uuid : Nat
  flags : Nat
  value : List Nat
deriving DecidableEq, Repr

/-- A service registered with the adapter's service table. -/
structure ServiceM where
  uuid : Nat
  characteristics : List CharacteristicM
deriving DecidableEq, Repr

/-- Modelled from the spec: the UUID and permission constants referenced by
`configureGenericServices` are defined outside `gap_hci.go`; they are the
Bluetooth assigned numbers for Generic Access (0x1800), Generic Attribute
(0x1801), Device Name (0x2A00), Appearance (0x2A01) and Service Changed
(0x2A05), and opaque distinct tokens for the two permission flags. -/
def serviceUUIDGenericAccess : Nat := 0x1800

/-- Generic Attribute service UUID token. -/
def serviceUUIDGenericAttribute : Nat := 0x1801

/-- Device Name characteristic UUID token. -/
def characteristicUUIDDeviceName : Nat := 0x2A00

/-- Appearance characteristic UUID token. -/
def characteristicUUIDAppearance : Nat := 0x2A01

/-- Service Changed characteristic UUID token. -/
def characteristicUUIDServiceChanged : Nat := 0x2A05

/-- Read-permission flag token. -/
def characteristicReadPermission : Nat := 0x02

/-- Indicate-permission flag token. -/
def characteristicIndicatePermission : Nat := 0x20

/-- The Generic Access service added on first configuration
(`gap_hci.go:507-522`): device name (the advertisement's local name at that
moment) and appearance, both read-only. -/
def gaService (localName : List Nat) (appearance : Nat) : ServiceM :=
  { uuid := serviceUUIDGenericAccess
    characteristics :=
      [{ uuid := characteristicUUIDDeviceName
         flags := characteristicReadPermission
         value := localName },
       { uuid := characteristicUUIDAppearance
         flags := characteristicReadPermission
         value := [appearance % 256, appearance / 256 % 256] }] }

/-- The Generic Attribute service added on first configuration
(`gap_hci.go:523-532`): the Service Changed indicator, no stored value. -/
def gattService : ServiceM :=
  { uuid := serviceUUIDGenericAttribute
    characteristics :=
      [{ uuid := characteristicUUIDServiceChanged
         flags := characteristicIndicatePermission
         value := [] }] }

/-- The advertisement state relevant to configuration (`Advertisement`,
`gap_hci.go:299-310`). -/
structure AdvertisementM where
  advertisementType : Nat
  localName : List Nat
  serviceUUIDs : List UUIDM
  interval : Nat
  manufacturerData : List MDElem
  serviceData : List SDElem
  genericServiceInit : Bool
deriving DecidableEq, Repr

/-- Options passed to `Configure` (strings as byte lists; an empty
`localName` is the empty Go string). -/
structure AdvertisementOptionsM where
  advertisementType : Nat
  localName : List Nat
  serviceUUIDs : List UUIDM
  interval : Nat
  manufacturerData : List MDElem
  serviceData : List SDElem

/-- The default local name `"TinyGo"` used when the configured name is
blank (`gap_hci.go:331`). -/
def tinyGoName : List Nat := [84, 105, 110, 121, 71, 111]

/-- The local-name fallback of `Configure` (`gap_hci.go:327-332`). -/
def resolveLocalName (n : List Nat) : List Nat :=
  if n ≠ [] then n else tinyGoName

/-- `Advertisement.configureGenericServices` (`gap_hci.go:502-534`): a no-op
once `genericServiceInit` is set; otherwise appends the Generic Access and
Generic Attribute services to the adapter's service table and sets the
flag.  The `name` parameter is unused in the source body (the Device Name
value is taken from `a.localName`); it is kept to mirror the signature. -/
def configureGenericServices (a : AdvertisementM) (table : List ServiceM)
    (_name : List Nat) (appearance : Nat) : AdvertisementM × List ServiceM :=
  if a.genericServiceInit then (a, table)
  else
    ({ a with genericServiceInit := true },
      table ++ [gaService a.localName appearance, gattService])

/-- `Advertisement.Configure` (`gap_hci.go:324-345`): stores the options
(with the `"TinyGo"` name fallback, a `uint16` cast on the interval and the
`0x0800` interval fallback), then runs `configureGenericServices` with the
fixed Generic Sensor appearance `0x0540`. -/
def configureAdv (a : AdvertisementM) (table : List ServiceM)
    (o : AdvertisementOptionsM) : AdvertisementM × List ServiceM :=
  let a := { a with advertisementType := o.advertisementType }
  let a := { a with localName := resolveLocalName o.localName }
  let a := { a with serviceUUIDs := o.serviceUUIDs }
  let a := { a with interval :=
    if o.interval % 65536 = 0 then 0x0800 else o.interval % 65536 }
  let a := { a with manufacturerData := o.manufacturerData }
  let a := { a with serviceData := o.serviceData }
  configureGenericServices a table a.localName 0x0540

/-- `n` successive `Configure` calls on the same advertisement instance, the
`k`-th call using options `opts k`. -/
def configureN (a : AdvertisementM) (table : List ServiceM)
    (opts : Nat → AdvertisementOptionsM) : Nat → AdvertisementM × List ServiceM
  | 0 => (a, table)
  | n + 1 =>
    let st := configureN a table opts n
    configureAdv st.1 st.2 (opts n)

/-! ## The advertising stop rendezvous (`Advertisement.Start` / `Stop`,
`gap_hci.go:415-449`)

`Start` spawns one background task that loops: a non-blocking `select` on
the unbuffered `stop` channel (receiving makes the task return at once),
otherwise one `att.poll` and a brief sleep.  `Stop` disables advertising
(returning the transport error immediately if that fails), clears buffered
attribute data, and performs a blocking send on `stop`; the send completes
only at a rendezvous with the task's receive.  The two threads are modelled
as a small-step transition system over their program counters; the
rendezvous is one joint step, and since the task's `select` case body is
`return`, consuming the signal terminates the task. -/

/-- Program counter of the `Stop` caller: about to issue the disable
command, blocked on the channel send, returned with the transport error, or
returned successfully. -/
inductive StopperPC
  | start
  | atSend
  | retErr
  | retOk
deriving DecidableEq, Repr

/-- Program counter of the background servicing task. -/
inductive TaskPC
  | running
  | terminated
deriving DecidableEq, Repr

/-- Joint state of the `Stop` caller and the background task, with the
number of `att.poll` calls the task has made since `Stop` began and the
commands `Stop` has issued. -/
structure AdvSys where
  stopper : StopperPC
  task : TaskPC
  polls : Nat
  cmds : List HCICmd
deriving DecidableEq, Repr

/-- Interleaved steps of `Stop` and the background task, indexed by whether
the `leSetAdvertiseEnable(false)` command errors. -/
inductive AdvStep : Bool → AdvSys → AdvSys → Prop
  | disableOk (t p c) :
      AdvStep false ⟨.start, t, p, c⟩
        ⟨.atSend, t, p, c ++ [.setAdvEnable false, .clearLocalData]⟩
  | disableFailed (t p c) :
      AdvStep true ⟨.start, t, p, c⟩ ⟨.retErr, t, p, c ++ [.setAdvEnable false]⟩
  | taskPoll (e s p c) :
      AdvStep e ⟨s, .running, p, c⟩ ⟨s, .running, p + 1, c⟩
  | rendezvous (e p c) :
      AdvStep e ⟨.atSend, .running, p, c⟩ ⟨.retOk, .terminated, p, c⟩

/-- State at the moment `Stop` is called while advertising: the task is
running and `Stop` is about to disable advertising. -/
def advInit : AdvSys := ⟨.start, .running, 0, []⟩

/-- States reachable from `advInit` by interleaving. -/
def AdvReachable (e : Bool) (s : AdvSys) : Prop :=
  Relation.ReflTransGen (AdvStep e) advInit s

/-! ## Concrete inputs for counterexamples and witnesses -/

/-- Report buffer `[0x02, 0x02, 0x34]` of declared length 3: its single AD
structure declares a 16-bit UUID whose second byte lies past the declared
data. -/
def truncatedReport : Nat → Nat := fun i => [2, 2, 52].getD i 0

/-- Report buffer `[0x03, 0x09, 65, 66]` of declared length 4: one complete
local-name structure. -/
def wellFormedReport : Nat → Nat := fun i => [3, 9, 65, 66].getD i 0

/-- A connect environment that never reports a connection: time advances one
second per poll iteration and all transport commands succeed. -/
def silentPeerEnv : ConnEnv :=
  { createErr := false
    cancelErr := false
    pollErr := fun _ => false
    event := fun _ => ⟨false, 0, [0, 0, 0, 0, 0, 0], 0⟩
    elapsedNs := fun n => n * 1000000000 }

/-- A connect environment whose third poll reports a connect-complete event
with handle 9, peer address `01:02:03:04:05:06` and a random (0x01)
controller-reported address type. -/
def respondingPeerEnv : ConnEnv :=
  { createErr := false
    cancelErr := false
    pollErr := fun _ => false
    event := fun n =>
      if n = 2 then ⟨true, 9, [1, 2, 3, 4, 5, 6], 1⟩ else ⟨false, 0, [], 0⟩
    elapsedNs := fun _ => 0 }

/-- A caller-supplied public (non-random) address. -/
def callerAddr : MACAddressM := ⟨[9, 9, 9, 9, 9, 9], false⟩

/-- Advertisement options with local name "A" (ASCII 65). -/
def optsNameA : AdvertisementOptionsM := ⟨0, [65], [], 0, [], []⟩

/-- Advertisement options with local name "B" (ASCII 66). -/
def optsNameB : AdvertisementOptionsM := ⟨0, [66], [], 0, [], []⟩

/-- An unconfigured advertisement instance (the zero value of the Go
struct, as for the process-wide `defaultAdvertisement`). -/
def advZero : AdvertisementM := ⟨0, [], [], 0, [], [], false⟩

/-- A sequence of `Configure` options whose local name changes between the
first call ("A") and every later call ("B"). -/
def advOptsSeq : Nat → AdvertisementOptionsM :=
  fun k => if k = 0 then optsNameA else optsNameB

/-- The decode walk of a report reads the buffer only at offsets strictly
below the declared report length. -/
def readsBelow (buf : Nat → Nat) (length : Nat) : Prop :=
  ∀ o ∈ scanReadOffsets buf length, o < length

instance (buf : Nat → Nat) (length : Nat) : Decidable (readsBelow buf length) := by
  unfold readsBelow; infer_instance

/-- No interleaved step of the stop rendezvous system is possible from `s`. -/
def noFurtherStep (e : Bool) (s : AdvSys) : Prop :=
  ∀ s2, ¬ AdvStep e s s2

/-- The result of `connect` does not depend on the controller-reported peer
address type carried by the connect events. -/
def connTypeInsensitive (addr : MACAddressM) (env : ConnEnv) (fuel : Nat) : Prop :=
  ∀ t, connect addr (setEventType env t) fuel = connect addr env fuel

/-- State after `Stop` propagated a failing disable command: `Stop` has
returned, the never-signalled task still runs. -/
def advErrState : AdvSys := ⟨.retErr, .running, 0, [.setAdvEnable false]⟩

/-- State after a completed stop rendezvous. -/
def advDoneState : AdvSys :=
  ⟨.retOk, .terminated, 0, [.setAdvEnable false, .clearLocalData]⟩

/-! ## Theorems -/

/-- Claim C1: the claim says the scan-response encoder emits a name of 1..29
bytes with type Complete Local Name (0x09) and a longer name truncated to
29 bytes with type Shortened Local Name (0x08), so that "Go Bluetooth"
encodes as `len=13, type=0x09, name`.  The code has the two type bytes
swapped: the 12-byte name "Go Bluetooth" encodes with length byte 13 but
type 0x08 (Shortened), and a 30-byte name encodes with length byte 30 and
type 0x09 (Complete) over its first 29 bytes. -/
theorem scanResponse_localName_types_swapped :
    buildScanResponseData goBluetoothName [] =
      Except.ok ([13, 8] ++ goBluetoothName) ∧
    buildScanResponseData longName30 [] =
      Except.ok ([30, 9] ++ longName30.take 29) := by
  constructor <;> rfl

set_option maxRecDepth 8000 in
/-- Claim C2: the claim says the packet builders return a length-exceeded
error exactly when appending an element would push the packet past 31
bytes, including payloads of 252 bytes or more where the 8-bit length
arithmetic could wrap.  The `uint8` guard does wrap: a single 252-byte
manufacturer-data payload (true packet size 3+4+252 = 259 > 31) passes the
check `(3+4+252) % 256 = 3 ≤ 31`, so `Start` returns no error and pushes
the bare 3-byte Flags packet, silently dropping the element; the
scan-response builder does the same for a 252-byte service-data payload,
pushing an empty packet. -/
theorem advData_length_guard_wraps_at_252 :
    buildAdvData [] [⟨0x1234, List.replicate 252 0⟩] = Except.ok [2, 1, 6] ∧
    buildScanResponseData [] [⟨.u16 0x2A6E, List.replicate 252 0⟩] = Except.ok [] ∧
    31 < 3 + 4 + 252 := by
  refine ⟨?_, ?_, by norm_num⟩ <;> rfl

/-- Claim C4: the claim says every AD structure of an error-free
advertising-data packet is `[length][type][value]` with
`length = 1 + len(value)`, never exceeding the remaining budget, also for
32-bit and 128-bit service UUIDs.  For a 128-bit UUID the encoder emits
`[2,1,6,3,3]`: the final structure declares length 3 but only 1 byte
remains in the packet.  For a 32-bit UUID it hard-codes the length byte
0x03 while advancing the packet by 8 bytes, so the 6 copied UUID bytes are
not covered by any structure and the packet fails to parse. -/
theorem advData_uuid_structures_malformed :
    buildAdvData [UUIDM.u128 (List.replicate 16 0)] [] =
      Except.ok [2, 1, 6, 3, 3] ∧
    adPacketWellFormed [2, 1, 6, 3, 3] = false ∧
    buildAdvData [UUIDM.u32 (List.range 16)] [] =
      Except.ok [2, 1, 6, 3, 3, 15, 14, 13, 12, 11, 10] ∧
    adPacketWellFormed [2, 1, 6, 3, 3, 15, 14, 13, 12, 11, 10] = false ∧
    adPacketWellFormed [2, 1, 6, 3, 3, 52, 18] = true := by
  exact ⟨rfl, rfl, rfl, rfl, rfl⟩

/-- Claim C6: the claim says looking up a previously added notification
registration returns the first stored entry with that handle and that the
returned reference shares identity with the registry's entry, so a
mutation through it is visible to the registry.  The lookup does return the
first matching entry by value, but `return &n` returns the address of the
range-loop copy: writing a new callback through the returned reference
leaves the registry's entry unchanged. -/
theorem findNotificationRegistration_returns_copy :
    findNotificationRegistration (addNotificationRegistration [] 7 0) 7 =
      some (.freshCopy ⟨7, 0⟩) ∧
    writeCallbackThroughRef (addNotificationRegistration [] 7 0)
      (.freshCopy ⟨7, 0⟩) 1 = [⟨7, 0⟩] ∧
    ([⟨7, 0⟩] : List NotifReg) ≠ [⟨7, 1⟩] := by
  exact ⟨rfl, rfl, by decide⟩

/-- Claim C3, counterexample: the decode walk does read at or beyond the
declared report length.  For the report `[0x02, 0x02, 0x34]` of declared
length 3, the single AD structure declares a 16-bit service UUID and the
walk reads the UUID byte at offset 3, which is not below the declared
length. -/
theorem scan_decode_reads_reach_declared_length :
    ¬ readsBelow truncatedReport 3 := by decide

/-- Inductive core for the amended claim C3: if every AD structure the walk
visits is well-formed, all offsets read are strictly below the declared
length. -/
theorem scanReadOffsetsAux_lt_length (buf : Nat → Nat) (length : Nat) :
    ∀ fuel i, (∀ j ∈ scanVisitedAux buf length fuel i, adStructWF buf length j) →
      ∀ o ∈ scanReadOffsetsAux buf length fuel i, o < length := by
  intro fuel
  induction fuel with
  | zero =>
    intro i _ o ho
    simp [scanReadOffsetsAux] at ho
  | succ f ih =>
    intro i hvis o ho
    by_cases hi : i < length
    · by_cases hl : buf i < 1
      · have hwf : adStructWF buf length i := hvis i (by simp [scanVisitedAux, hi, hl])
        obtain ⟨h2, _, _, _⟩ := hwf
        simp only [scanReadOffsetsAux, if_pos hi, if_pos hl, List.mem_cons,
          List.not_mem_nil, or_false] at ho
        rcases ho with rfl | rfl <;> omega
      · have hwf : adStructWF buf length i := hvis i (by simp [scanVisitedAux, hi, hl])
        obtain ⟨h2, hext, h16, h128⟩ := hwf
        have hb1 : 1 ≤ buf i := by omega
        have hextd : i + 1 + buf i ≤ length := hext hb1
        simp only [scanReadOffsetsAux, if_pos hi, if_neg hl, List.mem_cons,
          List.mem_append] at ho
        rcases ho with rfl | rfl | hval | hrec
        · omega
        · omega
        · unfold valueReadOffsets at hval
          split_ifs at hval with ht1 ht2 ht3
          · have h3 := h16 ht1
            simp only [List.mem_cons, List.not_mem_nil, or_false] at hval
            rcases hval with rfl | rfl <;> omega
          · have h17 := h128 ht2
            simp only [List.mem_map, List.mem_range] at hval
            obtain ⟨k, hk, rfl⟩ := hval
            omega
          · simp only [List.mem_map, List.mem_range] at hval
            obtain ⟨k, hk, rfl⟩ := hval
            omega
          · simp at hval
        · exact ih (i + buf i + 1)
            (fun j hj => hvis j (by simp [scanVisitedAux, hi, hl]; right; exact hj))
            o hrec
    · simp [scanReadOffsetsAux, hi] at ho

/-- Claim C3 (amended): for every advertisement report whose declared length
is at most 31 and in which every AD structure reached by the decode walk is
well-formed — its 2-byte header lies within the declared data, its declared
extent `i + 1 + len` fits within the declared length, and its length field
is at least 3 for 16-bit-UUID types and at least 17 for 128-bit-UUID types
— the walk reads buffer bytes only at offsets strictly below the declared
report length.  (As stated, without the well-formedness proviso, the claim
is false: see the counterexample, where a truncated final structure makes
the walk read at the declared length.) -/
theorem scan_decode_reads_below_length (buf : Nat → Nat) (length : Nat)
    (_h31 : length ≤ 31)
    (hwf : ∀ j ∈ scanVisited buf length, adStructWF buf length j) :
    readsBelow buf length :=
  scanReadOffsetsAux_lt_length buf length length 0 hwf

/-- Witness for the amended claim C3 at the concrete well-formed report
`[0x03, 0x09, 65, 66]` of declared length 4. -/
theorem scan_decode_reads_below_length_witness :
    ((4 : Nat) ≤ 31 ∧
      (∀ j ∈ scanVisited wellFormedReport 4, adStructWF wellFormedReport 4 j)) ∧
    readsBelow wellFormedReport 4 :=
  ⟨⟨by decide, by decide⟩,
    scan_decode_reads_below_length wellFormedReport 4 (by decide) (by decide)⟩

/-- Claim C8: calling `Scan` while the scanning flag is already set returns
the scan-already-active error synchronously — no transport command issued,
flag unchanged, no results delivered — and calling `StopScan` while no scan
is active returns the scan-not-active error synchronously with no transport
command and the flag unchanged, in every environment. -/
theorem scan_stopScan_busy_errors_no_side_effect (env : ScanEnv) (fuel : Nat)
    (derr : Bool) :
    scan true env fuel = some (.error .errScanning, true, [], []) ∧
    stopScan false derr = (.error .errNotScanning, false, []) :=
  ⟨rfl, rfl⟩

/-- Helper for claim C5: with an error-free transport, no connect event
ever, and `N` the first iteration whose elapsed time exceeds 5 seconds, the
connect wait loop times out. -/
theorem connectLoop_timedOut (env : ConnEnv) (N : Nat)
    (hpoll : ∀ n, env.pollErr n = false)
    (hconn : ∀ n, (env.event n).connected = false)
    (hN : 5 < env.elapsedNs N / 1000000000)
    (hbefore : ∀ m, m < N → env.elapsedNs m / 1000000000 ≤ 5) :
    ∀ fuel n, n ≤ N → N < n + fuel → connectLoop env fuel n = some .timedOut := by
  intro fuel
  induction fuel with
  | zero => intro n h1 h2; omega
  | succ f ih =>
    intro n h1 h2
    by_cases hn : n = N
    · subst hn
      simp [connectLoop, hpoll n, hconn n, hN]
    · have hlt : n < N := by omega
      simp only [connectLoop, hpoll n, hconn n, Bool.false_eq_true, if_false,
        if_neg (Nat.not_lt.mpr (hbefore n hlt))]
      exact ih (n + 1) (by omega) (by omega)

/-- Claim C5: for every `Connect` call on a functioning transport during
which no connect-complete event is ever reported and `poll` never errors,
`Connect` returns the connection-failed error (`ErrConnect`) at the first
poll iteration whose elapsed wall-clock time exceeds 5 seconds —
approximately 5 seconds of polling — and issues exactly one
cancel-connection command before returning. -/
theorem connect_timeout_one_cancel (addr : MACAddressM) (env : ConnEnv) (N : Nat)
    (hcreate : env.createErr = false) (hcancel : env.cancelErr = false)
    (hpoll : ∀ n, env.pollErr n = false)
    (hconn : ∀ n, (env.event n).connected = false)
    (hN : 5 < env.elapsedNs N / 1000000000)
    (hbefore : ∀ m, m < N → env.elapsedNs m / 1000000000 ≤ 5) :
    connect addr env (N + 1) = some (.error .errConnect, 1) ∧
    5 * 1000000000 < env.elapsedNs N := by
  constructor
  · have hloop := connectLoop_timedOut env N hpoll hconn hN hbefore (N + 1) 0
      (by omega) (by omega)
    simp [connect, hcreate, hloop, hcancel]
  · have h6 : 6 ≤ env.elapsedNs N / 1000000000 := hN
    calc 5 * 1000000000 < 6 * 1000000000 := by norm_num
      _ ≤ env.elapsedNs N := (Nat.le_div_iff_mul_le (by norm_num)).mp h6

/-- Witness for claim C5: a silent peer whose clock advances one second per
poll iteration times out at iteration 6 with one cancel command. -/
theorem connect_timeout_one_cancel_witness :
    connect callerAddr silentPeerEnv 7 = some (.error .errConnect, 1) ∧
    5 * 1000000000 < silentPeerEnv.elapsedNs 6 :=
  connect_timeout_one_cancel callerAddr silentPeerEnv 6 rfl rfl (fun _ => rfl)
    (fun _ => rfl) (by decide) (by decide)

/-- Helper for claim C9: with an error-free transport and the first connect
event at iteration `N` (no earlier timeout), the wait loop captures that
event. -/
theorem connectLoop_got (env : ConnEnv) (N : Nat)
    (hpoll : ∀ m, m ≤ N → env.pollErr m = false)
    (hbef : ∀ m, m < N → (env.event m).connected = false)
    (hN : (env.event N).connected = true)
    (hfast : ∀ m, m < N → env.elapsedNs m / 1000000000 ≤ 5) :
    ∀ fuel n, n ≤ N → N < n + fuel →
      connectLoop env fuel n = some (.got (env.event N)) := by
  intro fuel
  induction fuel with
  | zero => intro n h1 h2; omega
  | succ f ih =>
    intro n h1 h2
    by_cases hn : n = N
    · subst hn
      simp [connectLoop, hpoll n le_rfl, hN]
    · have hlt : n < N := by omega
      simp only [connectLoop, hpoll n (by omega), hbef n hlt, Bool.false_eq_true,
        if_false, if_neg (Nat.not_lt.mpr (hfast n hlt))]
      exact ih (n + 1) (by omega) (by omega)

/-- Helper for claim C9: the `Device` returned by a successful `Connect`
carries the event's MAC bytes, the caller's is-random flag, the event's
handle and the default MTU. -/
theorem connect_success_shape (addr : MACAddressM) (env : ConnEnv) (N fuel : Nat)
    (hcreate : env.createErr = false)
    (hpoll : ∀ m, m ≤ N → env.pollErr m = false)
    (hbef : ∀ m, m < N → (env.event m).connected = false)
    (hN : (env.event N).connected = true)
    (hfast : ∀ m, m < N → env.elapsedNs m / 1000000000 ≤ 5)
    (hfuel : N < fuel) :
    connect addr env fuel = some (.ok
      { address := { mac := (env.event N).peerBdaddr, isRandom := addr.isRandom }
        handle := (env.event N).handle
        mtu := defaultMTU
        notificationRegistrations := [] }, 0) := by
  have hloop := connectLoop_got env N hpoll hbef hN hfast fuel 0 (by omega) (by omega)
  simp [connect, hcreate, hloop, makeAddress]

/-- Claim C9: for every successful `Connect(address, params)`, the MAC bytes
of the returned `Device` are taken from the controller-reported
connect-complete event while its is-random flag equals the caller-supplied
`address.isRandom`; the controller-reported peer address type is never
consulted, so replacing it by any value leaves the result unchanged. -/
theorem connect_mac_from_event_flag_from_caller (addr : MACAddressM)
    (env : ConnEnv) (N fuel : Nat)
    (hcreate : env.createErr = false)
    (hpoll : ∀ m, m ≤ N → env.pollErr m = false)
    (hbef : ∀ m, m < N → (env.event m).connected = false)
    (hN : (env.event N).connected = true)
    (hfast : ∀ m, m < N → env.elapsedNs m / 1000000000 ≤ 5)
    (hfuel : N < fuel) :
    connect addr env fuel = some (.ok
      { address := { mac := (env.event N).peerBdaddr, isRandom := addr.isRandom }
        handle := (env.event N).handle
        mtu := defaultMTU
        notificationRegistrations := [] }, 0) ∧
    connTypeInsensitive addr env fuel := by
  refine ⟨connect_success_shape addr env N fuel hcreate hpoll hbef hN hfast hfuel, ?_⟩
  intro t
  rw [connect_success_shape addr (setEventType env t) N fuel hcreate hpoll
      (by intro m hm; simpa [setEventType] using hbef m hm)
      (by simpa [setEventType] using hN)
      hfast hfuel,
    connect_success_shape addr env N fuel hcreate hpoll hbef hN hfast hfuel]
  simp [setEventType]

/-- Witness for claim C9: with the responding-peer environment (event at
iteration 2, controller-reported random address type), `Connect` returns
the event's MAC with the caller's non-random flag, independently of the
reported type. -/
theorem connect_mac_from_event_flag_from_caller_witness :
    connect callerAddr respondingPeerEnv 3 = some (.ok
      { address := { mac := (respondingPeerEnv.event 2).peerBdaddr
                     isRandom := callerAddr.isRandom }
        handle := (respondingPeerEnv.event 2).handle
        mtu := defaultMTU
        notificationRegistrations := [] }, 0) ∧
    connect callerAddr (setEventType respondingPeerEnv 0) 3 =
      connect callerAddr respondingPeerEnv 3 :=
  ⟨(connect_mac_from_event_flag_from_caller callerAddr respondingPeerEnv 2 3 rfl
      (fun _ _ => rfl) (by decide) (by decide) (by decide) (by omega)).1,
    (connect_mac_from_event_flag_from_caller callerAddr respondingPeerEnv 2 3 rfl
      (fun _ _ => rfl) (by decide) (by decide) (by decide) (by omega)).2 0⟩

/-- Helper for claim C7: the first `Configure` on an instance whose
`genericServiceInit` flag is clear appends exactly the Generic Access and
Generic Attribute services and sets the flag. -/
theorem configureAdv_first (a : AdvertisementM) (table : List ServiceM)
    (o : AdvertisementOptionsM) (h : a.genericServiceInit = false) :
    (configureAdv a table o).2 =
      table ++ [gaService (resolveLocalName o.localName) 0x0540, gattService] ∧
    (configureAdv a table o).1.genericServiceInit = true := by
  simp [configureAdv, configureGenericServices, h]

/-- Helper for claim C7: once `genericServiceInit` is set, `Configure`
leaves the service table untouched and the flag set. -/
theorem configureAdv_again (a : AdvertisementM) (table : List ServiceM)
    (o : AdvertisementOptionsM) (h : a.genericServiceInit = true) :
    (configureAdv a table o).2 = table ∧
    (configureAdv a table o).1.genericServiceInit = true := by
  simp [configureAdv, configureGenericServices, h]

/-- Claim C7: for every number `n ≥ 1` of `Configure` calls on the same
advertisement instance (with arbitrary, possibly changing options per
call), the adapter's service table receives exactly two generic-service
registrations in total — Generic Access and Generic Attribute — both added
during the first call (with the first call's resolved local name) and never
re-added or updated by later calls. -/
theorem configure_adds_generic_services_once (a : AdvertisementM)
    (table : List ServiceM) (opts : Nat → AdvertisementOptionsM) (n : Nat)
    (hinit : a.genericServiceInit = false) (hn : 1 ≤ n) :
    (configureN a table opts n).2 =
      table ++ [gaService (resolveLocalName (opts 0).localName) 0x0540, gattService] ∧
    (configureN a table opts n).1.genericServiceInit = true := by
  induction n with
  | zero => omega
  | succ k ih =>
    cases k with
    | zero => simpa [configureN] using configureAdv_first a table (opts 0) hinit
    | succ m =>
      have prev := ih (by omega)
      have step := configureAdv_again (configureN a table opts (m + 1)).1
        (configureN a table opts (m + 1)).2 (opts (m + 1)) prev.2
      refine ⟨?_, ?_⟩
      · show (configureAdv (configureN a table opts (m + 1)).1
          (configureN a table opts (m + 1)).2 (opts (m + 1))).2 = _
        rw [step.1, prev.1]
      · show (configureAdv (configureN a table opts (m + 1)).1
          (configureN a table opts (m + 1)).2 (opts (m + 1))).1.genericServiceInit = true
        exact step.2

/-- Witness for claim C7: two `Configure` calls on the zero-valued instance,
with the local name changing from "A" to "B", register the two generic
services exactly once, with the first call's name. -/
theorem configure_adds_generic_services_once_witness :
    (configureN advZero [] advOptsSeq 2).2 =
      [] ++ [gaService (resolveLocalName (advOptsSeq 0).localName) 0x0540, gattService] ∧
    (configureN advZero [] advOptsSeq 2).1.genericServiceInit = true :=
  configure_adds_generic_services_once advZero [] advOptsSeq 2 rfl (by omega)

/-- Claim C10, counterexample: the claim as stated is false on the code.  If
the `leSetAdvertiseEnable(false)` transport command fails, `Stop`
propagates the error and returns immediately: the reached state has `Stop`
returned while the stop signal was never consumed, and the background task
is still running and can still take a polling step. -/
theorem stop_transport_error_leaves_task_running :
    AdvReachable true advErrState ∧
    AdvStep true advErrState ⟨.retErr, .running, 1, [.setAdvEnable false]⟩ :=
  ⟨Relation.ReflTransGen.single (AdvStep.disableFailed .running 0 []),
    AdvStep.taskPoll true .retErr 0 [.setAdvEnable false]⟩

/-- Claim C10 (amended): when the advertising-disable transport command
succeeds, `Stop` on an advertisement that is currently advertising never
returns before the background servicing task has received (consumed) the
one-shot stop signal — the only transition producing a successful return is
the rendezvous itself, which terminates the task — and after `Stop` returns
no background servicing task remains running (no further step, in
particular no further poll, is possible).  If the disable command fails,
`Stop` returns the transport error with the task left running (see the
counterexample). -/
theorem stop_returns_only_after_task_terminated (s : AdvSys)
    (h : AdvReachable false s) (hret : s.stopper = .retOk) :
    s.task = .terminated ∧ noFurtherStep false s := by
  have inv : ∀ u : AdvSys, AdvReachable false u → u.stopper = .retOk →
      u.task = .terminated := by
    intro u hu
    induction hu with
    | refl => intro hr; simp [advInit] at hr
    | tail hb hstep ih =>
      intro hr
      cases hstep with
      | disableOk t p c => simp at hr
      | taskPoll e s2 p c => have hx := ih hr; simp at hx
      | rendezvous e p c => rfl
  have hterm := inv s h hret
  refine ⟨hterm, ?_⟩
  intro s2 hstep
  cases hstep <;> simp_all

/-- Witness for the amended claim C10 at the completed rendezvous state:
reached by the disable step followed by the rendezvous, it has the task
terminated and, in particular, admits no step back to the initial state. -/
theorem stop_returns_only_after_task_terminated_witness :
    advDoneState.task = .terminated ∧ ¬ AdvStep false advDoneState advInit := by
  have hreach : AdvReachable false advDoneState :=
    Relation.ReflTransGen.tail
      (Relation.ReflTransGen.single (AdvStep.disableOk .running 0 []))
      (AdvStep.rendezvous false 0 [.setAdvEnable false, .clearLocalData])
  exact ⟨(stop_returns_only_after_task_terminated advDoneState hreach rfl).1,
    (stop_returns_only_after_task_terminated advDoneState hreach rfl).2 advInit⟩

end GapHci
